import Mathlib

/-!
Verification of the CIVISENCE AI decision engine core against its
natural-language specification.

The Python sources under `ai_service/app` are shallowly embedded: pure
functions become Lean functions, the stateful queue/worker/retry machinery
becomes explicit state passing and step relations, floats become real
numbers, and Mongo collections become lists of documents.  Where the
repository snapshot only contains the callers of a component (the
later-generation `PriorityEngine` composition), the missing part is
modelled from the specification and marked as such in its doc comment.
-/

namespace Civisense

/-! ## Processing queue (`app/workers/processing_queue.py`)

State of `ProcessingQueue` together with the runtime-stats fields it
touches: the FIFO contents (`asyncio.Queue`), the `_queued_ids` dedup set
(modelled as a duplicate-free list), `RuntimeStats.in_flight_complaint_id`
and `RuntimeStats.queue_enqueued`. -/

structure QueueState where
  fifo : List String
  queuedIds : List String
  inFlightComplaintId : Option String
  queueEnqueued : Nat
  deriving Repr, DecidableEq

/-- `ProcessingQueue.enqueue` (processing_queue.py lines 32-40): under the
lock, a cid that is already queued or in flight is rejected; otherwise it
is added to the dedup set, put on the FIFO and the `queueEnqueued` counter
is incremented.  The whole operation is atomic with respect to the event
loop: the critical section contains no awaitable that yields (the queue is
unbounded so `put` never blocks, and the lock is never held across a
suspension point). -/
def enqueue (st : QueueState) (cid : String) : Bool × QueueState :=
  if cid ∈ st.queuedIds ∨ st.inFlightComplaintId = some cid then
    (false, st)
  else
    (true,
      { st with
        queuedIds := cid :: st.queuedIds
        fifo := st.fifo ++ [cid]
        queueEnqueued := st.queueEnqueued + 1 })

/-- One atomic transition of the queue/worker system
(`processing_queue.py`).  `pickup` is the worker block at lines 48-52:
`await self._queue.get()` returning an item, setting the in-flight marker
and discarding the cid from the dedup set run without an intervening
suspension point (non-empty `get`, uncontended lock).  `finish` is the
`finally` block at line 59 clearing the marker; the processing between
`pickup` and `finish` does not touch the queue state except through
`enqueue` steps. -/
inductive QueueStep : QueueState → QueueState → Prop
  | enq (st : QueueState) (cid : String) : QueueStep st (enqueue st cid).2
  | pickup (st : QueueState) (cid : String) (rest : List String)
      (hfifo : st.fifo = cid :: rest) (hidle : st.inFlightComplaintId = none) :
      QueueStep st
        { st with
          fifo := rest
          inFlightComplaintId := some cid
          queuedIds := st.queuedIds.erase cid }
  | finish (st : QueueState) (cid : String)
      (hbusy : st.inFlightComplaintId = some cid) :
      QueueStep st { st with inFlightComplaintId := none }

/-- Queue state at service startup: everything empty, nothing in flight. -/
def initQueueState : QueueState :=
  { fifo := [], queuedIds := [], inFlightComplaintId := none, queueEnqueued := 0 }

/-- States reachable from startup under any interleaving of enqueue calls
(change-stream listener, retry reconciler) and worker steps. -/
inductive QueueReachable : QueueState → Prop
  | init : QueueReachable initQueueState
  | step {s t : QueueState} : QueueReachable s → QueueStep s t → QueueReachable t

/-! ## Core document/runtime state
(`app/services/ai_processor.py`, `app/workers/retry_worker.py`,
`app/core/runtime.py`)

The `complaints` collection is modelled as an association list from cid to
the `priority` subdocument fields the core reads and writes
(`aiProcessed`, `aiProcessingStatus`); `RuntimeStats` contributes the
counters and the `retryAttempts` map. -/

structure DocPriority where
  aiProcessed : Bool
  aiProcessingStatus : String
  deriving Repr, DecidableEq

structure CoreState where
  docs : List (String × DocPriority)
  processedSuccess : Nat
  processedFailed : Nat
  retried : Nat
  retryAttempts : List (String × Nat)
  deriving Repr, DecidableEq

/-- `stats.retry_attempts.get(cid, 0)` — dictionary read with default 0. -/
def mapGetNat (m : List (String × Nat)) (k : String) : Nat :=
  (m.lookup k).getD 0

/-- `stats.retry_attempts[cid] = v` — dictionary write. -/
def mapSetNat (m : List (String × Nat)) (k : String) (v : Nat) :
    List (String × Nat) :=
  (k, v) :: m.filter (fun p => p.1 != k)

/-- `stats.retry_attempts.pop(cid, None)` — dictionary removal. -/
def mapPopNat (m : List (String × Nat)) (k : String) : List (String × Nat) :=
  m.filter (fun p => p.1 != k)

/-- `update_one({"_id": cid}, ...)` — update the document with the given
cid, if present, by the given field transformation. -/
def updateDoc (docs : List (String × DocPriority)) (cid : String)
    (f : DocPriority → DocPriority) : List (String × DocPriority) :=
  docs.map (fun p => if p.1 = cid then (p.1, f p.2) else p)

/-- `bson.ObjectId(complaint_id)` succeeds exactly on a 24-character hex
string (ai_processor.py line 109). -/
def isValidObjectId (s : String) : Bool :=
  s.length == 24 && s.data.all (fun c =>
    ('0' ≤ c && c ≤ '9') || ('a' ≤ c && c ≤ 'f') || ('A' ≤ c && c ≤ 'F'))

/-- `AIProcessor._claim_for_processing` (ai_processor.py lines 152-163):
atomic find-and-update `status: pending → processing` keyed on cid,
guarded by `aiProcessed=false`; returns the claimed document or `none`. -/
def claimForProcessing (st : CoreState) (cid : String) :
    Option DocPriority × CoreState :=
  match st.docs.lookup cid with
  | some d =>
      if d.aiProcessed = false ∧ d.aiProcessingStatus = "pending" then
        ((some { d with aiProcessingStatus := "processing" }),
          { st with
            docs := updateDoc st.docs cid
              (fun e => { e with aiProcessingStatus := "processing" }) })
      else (none, st)
  | none => (none, st)

/-- `AIProcessor._mark_success` (ai_processor.py lines 421-443): the
success write-back sets `aiProcessed=true` and `aiProcessingStatus="done"`
(priority fields and `aiMeta` are carried alongside and not modelled
here). -/
def markSuccess (st : CoreState) (cid : String) : CoreState :=
  { st with
    docs := updateDoc st.docs cid
      (fun e => { e with aiProcessed := true, aiProcessingStatus := "done" }) }

/-- `AIProcessor._mark_failed` (ai_processor.py lines 445-463): the
failure write-back sets `aiProcessed=false` and
`aiProcessingStatus="failed"`. -/
def markFailed (st : CoreState) (cid : String) : CoreState :=
  { st with
    docs := updateDoc st.docs cid
      (fun e => { e with aiProcessed := false, aiProcessingStatus := "failed" }) }

/-- Abstract outcome of the per-item analysis pipeline (image fetch,
inference, rules): either the write-back of a computed result succeeds, or
some stage raised and the top-level handler runs. -/
inductive PipelineOutcome
  | success
  | failure
  deriving Repr, DecidableEq

/-- `AIProcessor.process_complaint` (ai_processor.py lines 107-150) at the
granularity of the claims: an unparseable cid is logged and skipped with
no state change (lines 107-112); an unclaimable item is skipped (lines
114-116); otherwise the pipeline outcome decides between the success
write-back (counter increment and `retryAttempts` pop, lines 134-136) and
the failure write-back (counter increment, lines 147-150). -/
def processComplaint (cid : String) (outcome : PipelineOutcome)
    (st : CoreState) : CoreState :=
  if isValidObjectId cid = false then st
  else
    match claimForProcessing st cid with
    | (none, _) => st
    | (some _, st1) =>
        match outcome with
        | .success =>
            let st2 := markSuccess st1 cid
            { st2 with
              processedSuccess := st2.processedSuccess + 1
              retryAttempts := mapPopNat st2.retryAttempts cid }
        | .failure =>
            markFailed { st1 with processedFailed := st1.processedFailed + 1 } cid

/-- One iteration of the failed sweep of `RetryWorker.run_once`
(retry_worker.py lines 70-94): read the attempt count with default 0, skip
the cid once the count has reached `maxRetryAttempts`, otherwise
compare-and-set `status: failed → pending` and, when the document was
still failed, record the incremented attempt count, bump `retried` and
enqueue (queueing is modelled separately by `enqueue`). -/
def retrySweepFailedItem (maxRetryAttempts : Nat) (st : CoreState)
    (cid : String) : CoreState :=
  let attemptCount := mapGetNat st.retryAttempts cid
  if maxRetryAttempts ≤ attemptCount then st
  else
    match st.docs.lookup cid with
    | some d =>
        if d.aiProcessed = false ∧ d.aiProcessingStatus = "failed" then
          { st with
            docs := updateDoc st.docs cid
              (fun e => { e with aiProcessed := false, aiProcessingStatus := "pending" })
            retryAttempts := mapSetNat st.retryAttempts cid (attemptCount + 1)
            retried := st.retried + 1 }
        else st
    | none => st

/-- A core operation mutating the shared store/runtime state: a full
per-item processing pass or one failed-sweep reconciler step. -/
inductive CoreOp
  | processOp (cid : String) (outcome : PipelineOutcome)
  | retrySweepOp (maxRetryAttempts : Nat) (cid : String)

def applyCoreOp (st : CoreState) : CoreOp → CoreState
  | .processOp cid outcome => processComplaint cid outcome st
  | .retrySweepOp m cid => retrySweepFailedItem m st cid

def applyCoreOps (st : CoreState) (ops : List CoreOp) : CoreState :=
  ops.foldl applyCoreOp st

/-! ## Text scoring engine (`app/services/text_scoring_engine.py`)

Keyword-group scoring with stop-word normalization.  Python strings become
Lean `String`s; `re.findall(r"[a-z0-9]+", text.lower())` becomes an
explicit tokenizer and the compiled word-boundary patterns
`(?<!\w)kw(?!\w)` become an explicit non-overlapping scan with boundary
checks. -/

def HIGH_RISK : List String :=
  ["accident", "injury", "emergency", "collapsed", "fire", "exposed wire",
    "flooding main road"]

def MEDIUM_RISK : List String :=
  ["dangerous", "deep", "overflow", "blocking traffic", "severe",
    "heavy leakage"]

def NORMAL_RISK : List String :=
  ["pothole", "garbage", "drainage", "leak", "broken", "damaged",
    "streetlight"]

def DEFAULT_STOP_WORDS : List String :=
  ["a", "an", "and", "are", "as", "at", "be", "but", "by", "for", "from",
    "has", "have", "he", "her", "his", "i", "in", "is", "it", "its", "me",
    "my", "of", "on", "or", "our", "she", "that", "the", "their", "them",
    "there", "they", "this", "to", "was", "we", "were", "with", "you",
    "your"]

/-- A character that survives `re.findall(r"[a-z0-9]+", ·)` after
lowercasing. -/
def isTokenChar (c : Char) : Bool :=
  ('a' ≤ c && c ≤ 'z') || ('0' ≤ c && c ≤ '9')

/-- Accumulating tokenizer for `re.findall(r"[a-z0-9]+", text.lower())`:
maximal runs of lowercase alphanumerics, with ASCII lowercasing applied
per character. -/
def tokenizeAux : List Char → List Char → List (List Char)
  | [], cur => if cur.isEmpty then [] else [cur.reverse]
  | c :: rest, cur =>
      let c2 := c.toLower
      if isTokenChar c2 then tokenizeAux rest (c2 :: cur)
      else if cur.isEmpty then tokenizeAux rest []
      else cur.reverse :: tokenizeAux rest []

def tokenize (s : String) : List String :=
  (tokenizeAux s.data []).map fun cs => String.mk cs

/-- `TextScoringEngine._normalize` (text_scoring_engine.py lines 133-137):
tokenize, optionally drop stop words, re-join with single spaces. -/
def normalizeText (s : String) (removeStopWords : Bool) : String :=
  let tokens := tokenize s
  let tokens :=
    if removeStopWords then
      tokens.filter fun t => !(DEFAULT_STOP_WORDS.contains t)
    else tokens
  String.intercalate " " tokens

/-- A regex `\w` word character (ASCII). -/
def isWordChar (c : Char) : Bool :=
  ('a' ≤ c && c ≤ 'z') || ('A' ≤ c && c ≤ 'Z') || ('0' ≤ c && c ≤ '9') ||
    (c == '_')

def boundaryBefore (prev : Option Char) : Bool :=
  match prev with
  | none => true
  | some c => !(isWordChar c)

def boundaryAfter (rest : List Char) : Bool :=
  match rest with
  | [] => true
  | c :: _ => !(isWordChar c)

/-- Number of matches `len(pattern.findall(text))` of the compiled pattern
`(?<!\w)kw(?!\w)` for a literal keyword `kw`: non-overlapping left-to-right
occurrences of `kw` whose neighbouring characters are not word
characters.  `prev` is the character preceding the current scan position,
if any. -/
def scanCount (kw : List Char) (prev : Option Char) (text : List Char) : Nat :=
  match text with
  | [] => 0
  | c :: rest =>
      if h : kw ≠ [] ∧ kw <+: (c :: rest) ∧ boundaryBefore prev = true ∧
          boundaryAfter ((c :: rest).drop kw.length) = true then
        1 + scanCount kw kw.getLast? ((c :: rest).drop kw.length)
      else
        scanCount kw (some c) rest
termination_by text.length
decreasing_by
  · have h1 : 1 ≤ kw.length := List.length_pos.mpr h.1
    simp only [List.length_drop, List.length_cons]
    omega
  · simp

/-- `TextScoringEngine._compile_patterns` (lines 119-131): each keyword is
normalized with stop-word removal; empty normalizations are dropped; the
pattern is the normalized literal with word boundaries. -/
def compilePatterns (keywords : List String) : List (String × List Char) :=
  keywords.filterMap fun kw =>
    let n := normalizeText kw true
    if n = "" then none else some (kw, n.data)

/-- `TextScoringEngine._count_group_matches` (lines 139-153): total match
count over the group's patterns plus the list of keywords with at least
one match. -/
def countGroupMatches (text : List Char) (patterns : List (String × List Char)) :
    Nat × List String :=
  patterns.foldl
    (fun acc p =>
      let k := scanCount p.2 none text
      if k > 0 then (acc.1 + k, acc.2 ++ [p.1]) else acc)
    (0, [])

/-! ## Semantic category validation (`app/services/ai_processor.py`
lines 25-64 and 465-528)

Detector labels and classifier labels are Python strings; confidences are
floats compared against `yoloMinConfidenceForSeverity` and are modelled as
rationals.  Normalized phrases are kept as character lists; the Python
substring operator `in` becomes an explicit infix check. -/

/-- Python `str.lower()` (ASCII range, as exercised by the labels). kept
at the character-list level so that terms reduce definitionally. -/
def pyLower (s : String) : String :=
  String.mk (s.data.map Char.toLower)

/-- Python `str.strip()`: leading and trailing whitespace removed. -/
def pyStrip (s : String) : String :=
  String.mk (((s.data.dropWhile Char.isWhitespace).reverse.dropWhile
    Char.isWhitespace).reverse)

structure Detection where
  label : String
  confidence : ℚ
  deriving Repr, DecidableEq

structure MobileNetClassification where
  label : String
  confidence : ℚ
  top_labels : List String
  deriving Repr, DecidableEq

def GENERIC_TRAFFIC_TERMS : List String :=
  ["person", "car", "truck", "bus", "motorcycle", "bicycle", "scooter",
    "vehicle", "traffic", "street", "road"]

def COMMON_NEGATIVE_TERMS : List String :=
  ["bedroom", "kitchen", "sofa", "laptop", "keyboard", "television"]

def SEMANTIC_PROFILES : List (String × (List String × List String)) :=
  [("garbage",
      (["garbage", "trash", "waste", "litter", "bin", "dumpster", "refuse",
          "landfill"], COMMON_NEGATIVE_TERMS)),
    ("drainage",
      (["drain", "sewer", "gutter", "manhole", "pipe", "water", "flood",
          "hydrant"], COMMON_NEGATIVE_TERMS)),
    ("water_leak",
      (["leak", "pipe", "water", "flood", "hydrant", "valve", "tap"],
        COMMON_NEGATIVE_TERMS)),
    ("pothole",
      (["pothole", "road", "street", "asphalt", "pavement", "crack", "hole"],
        COMMON_NEGATIVE_TERMS)),
    ("road_damage",
      (["road", "street", "asphalt", "pavement", "crack", "damage", "hole"],
        COMMON_NEGATIVE_TERMS)),
    ("streetlight",
      (["traffic light", "streetlight", "street lamp", "lamp post",
          "lamppost"], COMMON_NEGATIVE_TERMS))]

/-- `AIProcessor._normalize_phrase` (lines 507-510):
`re.sub(r"[^a-z0-9\s]+", " ", text.lower())` followed by split/re-join;
the net effect is the maximal `[a-z0-9]` runs of the lowercased text
joined by single spaces. -/
def normalizePhraseData (s : String) : List Char :=
  List.intercalate [' '] (tokenizeAux s.data [])

/-- Python's whitespace `str.split()` on a character list. -/
def wsSplitAux : List Char → List Char → List (List Char)
  | [], cur => if cur.isEmpty then [] else [cur.reverse]
  | c :: rest, cur =>
      if c.isWhitespace then
        if cur.isEmpty then wsSplitAux rest []
        else cur.reverse :: wsSplitAux rest []
      else wsSplitAux rest (c :: cur)

/-- Python's `needle in haystack` substring test. -/
def containsSubstr (needle haystack : List Char) : Bool :=
  haystack.tails.any fun t => needle.isPrefixOf t

/-- `" ".join(term.lower().split())` — the per-term normalization inside
`AIProcessor._match_terms`. -/
def normalizeTermData (t : String) : List Char :=
  List.intercalate [' '] (wsSplitAux (pyLower t).data [])

/-- `AIProcessor._match_terms` (lines 512-521): the terms that occur as a
substring of at least one phrase. -/
def matchTerms (terms : List String) (phrases : List (List Char)) :
    List String :=
  terms.filter fun t => phrases.any fun p => containsSubstr (normalizeTermData t) p

/-- `AIProcessor._token_pool` (lines 523-528): all whitespace-split tokens
of the normalized phrases (as a list; only emptiness and membership are
observed). -/
def tokenPoolData (phrases : List (List Char)) : List (List Char) :=
  (phrases.map fun p => wsSplitAux p []).flatten

/-- The eligible normalized phrase list of
`AIProcessor._validate_category_semantics` (lines 476-489): lowercased
detector labels with confidence at or above the severity floor, then the
classifier's label and up to three alternates, each normalized, dropping
empties. -/
def eligiblePhrases (minConf : ℚ) (detections : List Detection)
    (mobilenet : Option MobileNetClassification) : List (List Char) :=
  let phrases :=
    (detections.filter fun d => minConf ≤ d.confidence).map
        (fun d => pyLower d.label) ++
      (match mobilenet with
        | none => []
        | some m => pyLower m.label :: (m.top_labels.take 3).map pyLower)
  ((phrases.filter fun p => p ≠ "").map normalizePhraseData).filter
    fun p => p ≠ []

/-- `sorted(...)` plus `','.join(...)` over a Python set of strings, used
only to build the `semanticNote` text. -/
def joinSorted (l : List String) : String :=
  String.intercalate "," ((l.dedup.toArray.qsort fun a b => a < b).toList)

/-- `AIProcessor._validate_category_semantics` (lines 465-505): positive
substring hits give `match=true`; otherwise an entirely generic token pool
gives `match=null`; otherwise negative hits over at least two phrases give
`match=false`; otherwise `match=null`. -/
def validateCategorySemantics (minConf : ℚ) (category : Option String)
    (detections : List Detection)
    (mobilenet : Option MobileNetClassification) : Option Bool × String :=
  let cat := pyLower (pyStrip (category.getD ""))
  match SEMANTIC_PROFILES.lookup cat with
  | none => (none, "category_profile_missing")
  | some profile =>
      let normalized := eligiblePhrases minConf detections mobilenet
      if normalized.isEmpty then (none, "no_semantic_signals")
      else
        let positiveHits := matchTerms profile.1 normalized
        if !positiveHits.isEmpty then
          (some true, "positive:" ++ joinSorted positiveHits)
        else
          let pool := tokenPoolData normalized
          if !pool.isEmpty &&
              pool.all (fun t => GENERIC_TRAFFIC_TERMS.any fun g => g.data = t) then
            (none, "generic_only:" ++ joinSorted (pool.map fun t => String.mk t))
          else
            let negativeHits := matchTerms profile.2 normalized
            if !negativeHits.isEmpty && normalized.length ≥ 2 then
              (some false, "negative:" ++ joinSorted negativeHits)
            else (none, "insufficient_semantic_signal")

/-! ## Duplicate detection
(`app/services/ai_processor.py` lines 23, 244-333, 528-641 and
`app/utils/cosine_similarity.py`)

Floats become real numbers; candidate documents from the store query
become a list of records carrying the projected fields. -/

/-- Value of a hex digit, as accepted by `int(s, 16)` for the plain-digit
strings the fingerprint pipeline produces. -/
def hexDigitVal (c : Char) : Option Nat :=
  if '0' ≤ c ∧ c ≤ '9' then some (c.toNat - 48)
  else if 'a' ≤ c ∧ c ≤ 'f' then some (c.toNat - 87)
  else if 'A' ≤ c ∧ c ≤ 'F' then some (c.toNat - 55)
  else none

/-- `int(s, 16)` on the plain hex strings produced by
`_compute_image_fingerprint`; any other character raises `ValueError`,
modelled as `none`. -/
def parseHexNat (s : String) : Option Nat :=
  if s.data = [] then none
  else
    s.data.foldl
      (fun acc c =>
        match acc, hexDigitVal c with
        | some a, some v => some (a * 16 + v)
        | _, _ => none)
      (some 0)

/-- `int.bit_count()`. -/
def popCount (n : Nat) : Nat :=
  if n = 0 then 0 else n % 2 + popCount (n / 2)
decreasing_by exact Nat.div_lt_self (Nat.pos_of_ne_zero (by assumption)) one_lt_two

/-- `cosine_similarity` (app/utils/cosine_similarity.py): zero on empty or
mismatched vectors and on non-positive squared norms, otherwise
`dot / (sqrt(norm_a) * sqrt(norm_b))`. -/
noncomputable def cosine_similarity (a b : List ℝ) : ℝ :=
  if a = [] ∨ b = [] ∨ a.length ≠ b.length then 0
  else
    let dot := (a.zip b).foldl (fun acc p => acc + p.1 * p.2) 0
    let normA := a.foldl (fun acc x => acc + x * x) 0
    let normB := b.foldl (fun acc x => acc + x * x) 0
    if normA ≤ 0 ∨ normB ≤ 0 then 0
    else dot / (Real.sqrt normA * Real.sqrt normB)

/-- `AIProcessor._fingerprint_similarity` (lines 617-626):
`1 − hamming/64` clamped to `[0, 1]`, or `0` when a fingerprint fails to
parse. -/
noncomputable def fingerprintSimilarity (leftHex rightHex : String) : ℝ :=
  match parseHexNat leftHex, parseHexNat rightHex with
  | some l, some r =>
      max 0 (min 1 (1 - (popCount (l ^^^ r) : ℝ) / 64))
  | _, _ => 0

/-- `math.atan2`. -/
noncomputable def atan2 (y x : ℝ) : ℝ :=
  if 0 < x then Real.arctan (y / x)
  else if x < 0 ∧ 0 ≤ y then Real.arctan (y / x) + Real.pi
  else if x < 0 ∧ y < 0 then Real.arctan (y / x) - Real.pi
  else if x = 0 ∧ 0 < y then Real.pi / 2
  else if x = 0 ∧ y < 0 then -(Real.pi / 2)
  else 0

/-- `AIProcessor._haversine_meters` (lines 628-641), with
`math.radians d = d·π/180`. -/
noncomputable def haversineMeters (lng1 lat1 lng2 lat2 : ℝ) : ℝ :=
  let radius : ℝ := 6371000
  let phi1 := lat1 * Real.pi / 180
  let phi2 := lat2 * Real.pi / 180
  let dPhi := (lat2 - lat1) * Real.pi / 180
  let dLambda := (lng2 - lng1) * Real.pi / 180
  let value := Real.sin (dPhi / 2) ^ 2 +
    Real.cos phi1 * Real.cos phi2 * Real.sin (dLambda / 2) ^ 2
  let value := min 1 (max 0 value)
  radius * (2 * atan2 (Real.sqrt value) (Real.sqrt (1 - value)))

/-- A candidate document from the duplicate-scan query (lines 265-285):
id, `createdAt` (seconds since epoch), projected category, location
coordinates and `aiMeta` similarity carriers. -/
structure CandidateDoc where
  id : String
  createdAt : ℝ
  category : Option String
  coordinates : Option (ℝ × ℝ)
  embedding : Option (List ℝ)
  imageFingerprint : Option String

/-- `AIProcessor._is_same_category` (lines 530-535): `none` when either
side is empty after strip/case-fold, otherwise equality.  The source
category is assumed already normalized (line 263). -/
def isSameCategory (sourceCategory : String) (otherCategory : Option String) :
    Option Bool :=
  let other := pyLower (pyStrip (otherCategory.getD ""))
  if sourceCategory = "" ∨ other = "" then none
  else some (sourceCategory == other)

/-- `AIProcessor._distance_between_complaints` (lines 552-565): `none`
unless both coordinate pairs are present. -/
noncomputable def distanceBetween (sourceCoordinates otherCoordinates :
    Option (ℝ × ℝ)) : Option ℝ :=
  match sourceCoordinates, otherCoordinates with
  | some p, some q => some (haversineMeters p.1 p.2 q.1 q.2)
  | _, _ => none

/-- `AIProcessor._duplicate_similarity` (lines 581-597):
fingerprint↔fingerprint preferred, else embedding↔embedding, else skip. -/
noncomputable def duplicateSimilarity (currentEmbedding : Option (List ℝ))
    (currentFingerprint : Option String) (otherFingerprint : Option String)
    (otherEmbedding : Option (List ℝ)) : Option ℝ :=
  match currentFingerprint, otherFingerprint with
  | some l, some r => some (fingerprintSimilarity l r)
  | _, _ =>
      match currentEmbedding, otherEmbedding with
      | some e, some o => some (cosine_similarity e o)
      | _, _ => none

/-- `AIProcessor._duplicate_method` (lines 599-615). -/
def duplicateMethod (currentEmbedding : Option (List ℝ))
    (currentFingerprint : Option String) (otherFingerprint : Option String)
    (otherEmbedding : Option (List ℝ)) : Option String :=
  match currentFingerprint, otherFingerprint with
  | some _, some _ => some "dhash64"
  | _, _ =>
      match currentEmbedding, otherEmbedding with
      | some _, some _ => some "mobilenet_cosine_legacy"
      | _, _ => none

/-- The running best-candidate track of
`_check_duplicate_from_embedding` (lines 287-291): best similarity and the
matched candidate's id, distance, category comparison and method. -/
structure BestTrack where
  maxSim : ℝ
  matchedId : Option String
  matchedDist : Option ℝ
  matchedCatOk : Option Bool
  matchedMethod : Option String

/-- One loop iteration of the candidate scan (lines 293-317): skip when no
similarity is computable, update the track when the similarity strictly
exceeds the running maximum. -/
noncomputable def scanStep (emb : Option (List ℝ)) (fp : Option String)
    (srcCat : String) (srcCoords : Option (ℝ × ℝ)) (acc : BestTrack)
    (doc : CandidateDoc) : BestTrack :=
  match duplicateSimilarity emb fp doc.imageFingerprint doc.embedding with
  | none => acc
  | some sim =>
      if acc.maxSim < sim then
        { maxSim := sim
          matchedId := some doc.id
          matchedDist := distanceBetween srcCoords doc.coordinates
          matchedCatOk := isSameCategory srcCat doc.category
          matchedMethod := duplicateMethod emb fp doc.imageFingerprint doc.embedding }
      else acc

/-- The full candidate scan, starting from `max_similarity = 0.0` and no
match. -/
noncomputable def scanCandidates (emb : Option (List ℝ)) (fp : Option String)
    (srcCat : String) (srcCoords : Option (ℝ × ℝ))
    (candidates : List CandidateDoc) : BestTrack :=
  candidates.foldl (scanStep emb fp srcCat srcCoords)
    { maxSim := 0, matchedId := none, matchedDist := none,
      matchedCatOk := none, matchedMethod := none }

def DUPLICATE_MAX_DISTANCE_METERS : ℝ := 300

/-- A concrete candidate document used to exercise the duplicate gate on a
known input: same category, same coordinates, fingerprint "f". -/
def sampleDuplicateCandidate : CandidateDoc :=
  { id := "b", createdAt := 1, category := some "pothole",
    coordinates := some ((0 : ℝ), (0 : ℝ)), embedding := none,
    imageFingerprint := some "f" }

/-- `duplicate_from_image` (line 319): best similarity strictly above the
threshold. -/
def duplicateFromImage (threshold : ℝ) (b : BestTrack) : Prop :=
  threshold < b.maxSim

/-- `duplicate_in_same_area` (lines 320-322): a recorded distance exists
and is within 300 m. -/
def duplicateInSameArea (b : BestTrack) : Prop :=
  ∃ d, b.matchedDist = some d ∧ d ≤ DUPLICATE_MAX_DISTANCE_METERS

/-- `duplicate_same_category` (line 323): `bool(matched_category_ok)`. -/
def duplicateSameCategory (b : BestTrack) : Prop :=
  b.matchedCatOk = some true

/-- `is_duplicate` (line 324): the conjunction of the three gates. -/
def isDuplicateResult (threshold : ℝ) (b : BestTrack) : Prop :=
  duplicateFromImage threshold b ∧ duplicateInSameArea b ∧
    duplicateSameCategory b

structure TextScoreResult where
  filtered_text : String
  high_count : Nat
  medium_count : Nat
  normal_count : Nat
  base_score : Nat
  matched_high : List String
  matched_medium : List String
  matched_normal : List String
  deriving Repr, DecidableEq

/-- `TextScoringEngine.score` (text_scoring_engine.py lines 99-117).  The
Python code lowercases and strips the combined text before `_normalize`;
both are absorbed by the tokenizer.  `base_score` is
`float(min(6, high*3 + medium*2 + normal))`, an integral value modelled as
a natural number. -/
def TextScoringEngine.score (title description : Option String) :
    TextScoreResult :=
  let combined := (title.getD "") ++ " " ++ (description.getD "")
  let filtered := normalizeText combined true
  let ft := filtered.data
  let high := countGroupMatches ft (compilePatterns HIGH_RISK)
  let medium := countGroupMatches ft (compilePatterns MEDIUM_RISK)
  let normal := countGroupMatches ft (compilePatterns NORMAL_RISK)
  { filtered_text := filtered
    high_count := high.1
    medium_count := medium.1
    normal_count := normal.1
    base_score := min 6 (high.1 * 3 + medium.1 * 2 + normal.1)
    matched_high := high.2
    matched_medium := medium.2
    matched_normal := normal.2 }

/-! ## Geo multiplier (`app/services/geo_multiplier.py`)

The pure semantics of the sensitive-location lookup: the collection
becomes a list of documents, and the geo query and its in-memory fallback
scan (which agree on outcomes by spec §8.13) are embedded as the fallback
scan's keyword-and-haversine predicate. -/

def GEO_RADIUS_METERS : ℝ := 2000

structure GeoMultiplierResult where
  multiplier : ℝ
  matched_type : String

structure SensitiveLocation where
  name : Option String
  locType : Option String
  category : Option String
  coordinates : Option (ℝ × ℝ)

/-- `GeoMultiplier._matches_keywords` (geo_multiplier.py lines 161-173):
join the lowercased present text fields and test each keyword for
substring occurrence. -/
def matchesKeywords (loc : SensitiveLocation) (keywords : List String) : Bool :=
  let textParts := ([loc.locType, loc.name, loc.category].filterMap id).map
    fun v => pyLower v
  if textParts.isEmpty then false
  else
    let joined := String.intercalate " " textParts
    keywords.any fun keyword => containsSubstr keyword.data joined.data

/-- `GeoMultiplier._is_near_location_type` via `_fallback_scan`
(lines 46-102): some document matches the keywords, carries coordinates
and lies within 2 km by haversine. -/
def nearLocationType (locs : List SensitiveLocation) (lng lat : ℝ)
    (keywords : List String) : Prop :=
  ∃ loc ∈ locs, matchesKeywords loc keywords = true ∧
    ∃ p, loc.coordinates = some p ∧
      haversineMeters lng lat p.1 p.2 ≤ GEO_RADIUS_METERS

open Classical in
/-- `GeoMultiplier.resolve` (lines 34-44): first matching rule wins —
school 1.5, hospital/clinic/medical 1.4, metro/subway/station 1.2 —
otherwise multiplier 1.0 with context "none"; missing coordinates short
circuit to 1.0/"none". -/
noncomputable def GeoMultiplier.resolve (locs : List SensitiveLocation)
    (coords : Option (ℝ × ℝ)) : GeoMultiplierResult :=
  match coords with
  | none => { multiplier := 1.0, matched_type := "none" }
  | some (lng, lat) =>
      if nearLocationType locs lng lat ["school"] then
        { multiplier := 1.5, matched_type := "school" }
      else if nearLocationType locs lng lat ["hospital", "clinic", "medical"] then
        { multiplier := 1.4, matched_type := "hospital" }
      else if nearLocationType locs lng lat ["metro", "subway", "station"] then
        { multiplier := 1.2, matched_type := "metro" }
      else { multiplier := 1.0, matched_type := "none" }

/-! ## Cluster detector (`app/services/cluster_detector.py`) -/

def CLUSTER_RADIUS_METERS : ℝ := 500

def CLUSTER_LOOKBACK_DAYS : ℝ := 3

def CLUSTER_THRESHOLD : Nat := 3

structure ClusterResult where
  nearby_count : Nat
  cluster_boost : ℝ

/-- The counting loop of `ClusterDetector._fallback_count`
(cluster_detector.py lines 126-139): skip documents without coordinates,
count those within 500 m, stop as soon as the threshold is reached. -/
noncomputable def clusterCountGo (lng lat : ℝ) :
    List CandidateDoc → Nat → Nat
  | [], count => count
  | d :: rest, count =>
      match d.coordinates with
      | none => clusterCountGo lng lat rest count
      | some p =>
          if haversineMeters lng lat p.1 p.2 ≤ CLUSTER_RADIUS_METERS then
            if count + 1 ≥ CLUSTER_THRESHOLD then count + 1
            else clusterCountGo lng lat rest (count + 1)
          else clusterCountGo lng lat rest count

open Classical in
/-- `ClusterDetector.detect` (lines 33-50): complaints of the last three
days near the complaint's coordinates, excluding its own id, with
`cluster_boost = 1.0` exactly when the (capped) count reaches 3; missing
coordinates give count 0 and boost 0.  The store-side filter
`createdAt ≥ now − 3 days ∧ _id ≠ cid` of both the geo query and the
fallback query is applied as a list filter; time is in seconds. -/
noncomputable def ClusterDetector.detect (docs : List CandidateDoc)
    (now : ℝ) (complaintId : Option String) (coords : Option (ℝ × ℝ)) :
    ClusterResult :=
  match coords with
  | none => { nearby_count := 0, cluster_boost := 0.0 }
  | some (lng, lat) =>
      let lookbackStart := now - CLUSTER_LOOKBACK_DAYS * 86400
      let eligible := docs.filter fun d =>
        decide (lookbackStart ≤ d.createdAt) &&
          (match complaintId with
            | some i => d.id != i
            | none => true)
      let count := clusterCountGo lng lat eligible 0
      { nearby_count := count
        cluster_boost := if count ≥ CLUSTER_THRESHOLD then 1.0 else 0.0 }

/-! ## Priority engine composition

`app/main.py` line 49 and `app/services/ai_processor.py` lines 119 and
346-385 call a `PriorityEngine` whose `compute(complaint)` returns
`base_score`, `geo_multiplier`, `geo_context`, `time_score`,
`cluster_count`, `cluster_boost`, `priority_score`, `priority_level` —
the later-generation engine of spec §4.7.  The snapshot's
`app/services/priority_engine.py` holds only the incompatible
earlier-generation engine (its `compute` takes a detection list and its
result carries `severity_score`/`location_boost`/`time_boost`), so the
later-generation composition itself is missing from the source tree and
is modelled from the specification below; its text, geo and cluster
components are embedded from their source files above. -/

structure PriorityResultV2 where
  base_score : ℝ
  geo_multiplier : ℝ
  geo_context : String
  time_score : ℝ
  cluster_count : Nat
  cluster_boost : ℝ
  priority_score : ℝ
  priority_level : String

/-- Modelled from the spec: `days_pending` is computed from `createdAt`
and defaults to 0 for unparseable values (spec §4.7); time is in seconds
and a day is 86400 seconds. -/
noncomputable def daysPending (now : ℝ) (createdAt : Option ℝ) : ℝ :=
  match createdAt with
  | none => 0
  | some t => (now - t) / 86400

/-- Modelled from the spec:
`time_score = min(3.0, 2.0 · log(days_pending + 1))` (spec §4.7), with
the natural logarithm of `math.log`. -/
noncomputable def timeScore (days : ℝ) : ℝ :=
  min 3 (2 * Real.log (days + 1))

/-- Modelled from the spec: `round(x, 2)` — rounding to two decimal
places (spec §4.7). -/
noncomputable def round2 (x : ℝ) : ℝ :=
  ((round (x * 100) : ℤ) : ℝ) / 100

open Classical in
/-- Modelled from the spec: the final level mapping of spec §4.7 —
low below 3, medium from 3 to 6 inclusive, high above 6. -/
noncomputable def mapLevel (score : ℝ) : String :=
  if score < 3 then "low"
  else if score ≤ 6 then "medium"
  else "high"

/-- The complaint fields consumed by the priority engine. -/
structure ComplaintInput where
  id : Option String
  title : Option String
  description : Option String
  coordinates : Option (ℝ × ℝ)
  createdAt : Option ℝ

/-- Modelled from the spec: the later-generation `PriorityEngine.compute`
(spec §4.7), missing from the snapshot (see the section comment):
`final_score = round(base_score · geo_multiplier + time_score +
cluster_boost, 2)` with the level mapping applied to the final score; the
components come from the embedded text scoring engine, geo multiplier and
cluster detector. -/
noncomputable def PriorityEngine.compute
    (sensitiveLocations : List SensitiveLocation)
    (otherComplaints : List CandidateDoc) (now : ℝ)
    (complaint : ComplaintInput) : PriorityResultV2 :=
  let text := TextScoringEngine.score complaint.title complaint.description
  let geo := GeoMultiplier.resolve sensitiveLocations complaint.coordinates
  let cluster := ClusterDetector.detect otherComplaints now complaint.id
    complaint.coordinates
  let t := timeScore (daysPending now complaint.createdAt)
  let final := round2 ((text.base_score : ℝ) * geo.multiplier + t +
    cluster.cluster_boost)
  { base_score := (text.base_score : ℝ)
    geo_multiplier := geo.multiplier
    geo_context := geo.matched_type
    time_score := t
    cluster_count := cluster.nearby_count
    cluster_boost := cluster.cluster_boost
    priority_score := final
    priority_level := mapLevel final }

end Civisense

namespace Civisense

theorem enqueue_preserves_inv (st : QueueState) (cid : String)
    (hnd : st.queuedIds.Nodup)
    (hnf : ∀ c, st.inFlightComplaintId = some c → c ∉ st.queuedIds) :
    (enqueue st cid).2.queuedIds.Nodup ∧
      ∀ c, (enqueue st cid).2.inFlightComplaintId = some c →
        c ∉ (enqueue st cid).2.queuedIds := by
  unfold enqueue
  by_cases h : cid ∈ st.queuedIds ∨ st.inFlightComplaintId = some cid
  · simpa [h] using ⟨hnd, hnf⟩
  · push_neg at h
    rw [if_neg (by simp [h.1, h.2])]
    refine ⟨List.nodup_cons.mpr ⟨h.1, hnd⟩, ?_⟩
    intro c hc
    simp only at hc
    intro hmem
    rcases List.mem_cons.mp hmem with rfl | hmem
    · exact h.2 hc
    · exact hnf c hc hmem

theorem queueStep_preserves_inv {s t : QueueState} (hstep : QueueStep s t)
    (hnd : s.queuedIds.Nodup)
    (hnf : ∀ c, s.inFlightComplaintId = some c → c ∉ s.queuedIds) :
    t.queuedIds.Nodup ∧
      ∀ c, t.inFlightComplaintId = some c → c ∉ t.queuedIds := by
  cases hstep with
  | enq cid => exact enqueue_preserves_inv s cid hnd hnf
  | pickup cid rest hfifo hidle =>
      refine ⟨hnd.erase cid, ?_⟩
      intro c hc
      simp only [Option.some.injEq] at hc
      subst hc
      intro hmem
      exact ((hnd.mem_erase_iff).mp hmem).1 rfl
  | finish cid hbusy =>
      exact ⟨hnd, by intro c hc; simp at hc⟩

/-- C7: in every state reachable from startup under any interleaving of
enqueue calls and worker steps, the queued-id set never contains the
in-flight cid and never contains duplicate entries. -/
theorem queued_ids_exclude_in_flight_and_nodup (s : QueueState)
    (h : QueueReachable s) :
    s.queuedIds.Nodup ∧
      ∀ c, s.inFlightComplaintId = some c → c ∉ s.queuedIds := by
  induction h with
  | init => exact ⟨List.nodup_nil, by intro c hc; simp [initQueueState] at hc⟩
  | step _ hstep ih => exact queueStep_preserves_inv hstep ih.1 ih.2

/-- C7 witness: the invariant instantiated at the startup state. -/
theorem queued_ids_exclude_in_flight_and_nodup_witness :
    initQueueState.queuedIds.Nodup ∧
      ∀ c, initQueueState.inFlightComplaintId = some c →
        c ∉ initQueueState.queuedIds :=
  queued_ids_exclude_in_flight_and_nodup initQueueState QueueReachable.init

/-- C6: `enqueue` returns `false` and leaves the FIFO, the queued-id set
and the `queueEnqueued` counter unchanged exactly when the cid is already
queued or is the in-flight cid; otherwise it appends the cid to the FIFO,
adds it to the queued set, increments the counter and returns `true`. -/
theorem enqueue_noop_iff_queued_or_in_flight (st : QueueState) (cid : String) :
    ((cid ∈ st.queuedIds ∨ st.inFlightComplaintId = some cid) →
      enqueue st cid = (false, st)) ∧
    (¬(cid ∈ st.queuedIds ∨ st.inFlightComplaintId = some cid) →
      enqueue st cid =
        (true,
          { st with
            queuedIds := cid :: st.queuedIds
            fifo := st.fifo ++ [cid]
            queueEnqueued := st.queueEnqueued + 1 })) := by
  constructor
  · intro h
    simp [enqueue, h]
  · intro h
    simp only [enqueue, if_neg h]

theorem updateDoc_status_preserve (docs : List (String × DocPriority))
    (cid : String) (f : DocPriority → DocPriority)
    (hold : ∀ p ∈ docs, p.2.aiProcessingStatus ≠ "review_required")
    (hf : ∀ d, (f d).aiProcessingStatus ≠ "review_required") :
    ∀ p ∈ updateDoc docs cid f, p.2.aiProcessingStatus ≠ "review_required" := by
  intro p hp
  rcases List.mem_map.mp hp with ⟨q, hq, rfl⟩
  by_cases h : q.1 = cid
  · simpa [h] using hf q.2
  · simpa [h] using hold q hq

theorem claimForProcessing_status_preserve (st : CoreState) (cid : String)
    (hold : ∀ p ∈ st.docs, p.2.aiProcessingStatus ≠ "review_required") :
    ∀ p ∈ (claimForProcessing st cid).2.docs,
      p.2.aiProcessingStatus ≠ "review_required" := by
  unfold claimForProcessing
  split
  · split
    · exact updateDoc_status_preserve st.docs cid
        (fun e => { e with aiProcessingStatus := "processing" }) hold
        (fun d => by simp)
    · exact hold
  · exact hold

theorem processComplaint_status_preserve (cid : String)
    (outcome : PipelineOutcome) (st : CoreState)
    (hold : ∀ p ∈ st.docs, p.2.aiProcessingStatus ≠ "review_required") :
    ∀ p ∈ (processComplaint cid outcome st).docs,
      p.2.aiProcessingStatus ≠ "review_required" := by
  unfold processComplaint
  split
  · exact hold
  · rcases hcf : claimForProcessing st cid with ⟨res, st1⟩
    have hclaim : ∀ p ∈ st1.docs, p.2.aiProcessingStatus ≠ "review_required" := by
      have h := claimForProcessing_status_preserve st cid hold
      rwa [hcf] at h
    cases res with
    | none => exact hold
    | some d =>
        cases outcome with
        | success =>
            exact updateDoc_status_preserve st1.docs cid
              (fun e => { e with aiProcessed := true, aiProcessingStatus := "done" })
              hclaim (fun d => by simp)
        | failure =>
            exact updateDoc_status_preserve st1.docs cid
              (fun e => { e with aiProcessed := false, aiProcessingStatus := "failed" })
              hclaim (fun d => by simp)

theorem retrySweep_status_preserve (m : Nat) (st : CoreState) (cid : String)
    (hold : ∀ p ∈ st.docs, p.2.aiProcessingStatus ≠ "review_required") :
    ∀ p ∈ (retrySweepFailedItem m st cid).docs,
      p.2.aiProcessingStatus ≠ "review_required" := by
  simp only [retrySweepFailedItem]
  split
  · exact hold
  · split
    · split
      · exact updateDoc_status_preserve st.docs cid
          (fun e => { e with aiProcessed := false, aiProcessingStatus := "pending" })
          hold (fun d => by simp)
      · exact hold
    · exact hold

/-- C10: no core write-back ever sets `priority.aiProcessingStatus` to
"review_required": the claim writes "processing", the success write-back
"done", the failure write-back "failed" and the retry flip "pending", so
starting from any store in which no document carries "review_required",
no sequence of core operations ever produces it. -/
theorem core_never_writes_review_required (ops : List CoreOp) (st : CoreState)
    (hold : ∀ p ∈ st.docs, p.2.aiProcessingStatus ≠ "review_required") :
    ∀ p ∈ (applyCoreOps st ops).docs,
      p.2.aiProcessingStatus ≠ "review_required" := by
  induction ops generalizing st with
  | nil => exact hold
  | cons op rest ih =>
      have hstep : ∀ p ∈ (applyCoreOp st op).docs,
          p.2.aiProcessingStatus ≠ "review_required" := by
        cases op with
        | processOp cid outcome => exact processComplaint_status_preserve cid outcome st hold
        | retrySweepOp m cid => exact retrySweep_status_preserve m st cid hold
      exact ih (applyCoreOp st op) hstep

/-- C10 witness: a processing pass followed by a retry sweep on a concrete
pending document leaves it at status "pending", which is not
"review_required". -/
theorem core_never_writes_review_required_witness :
    ("c00000000000000000000001",
        ({ aiProcessed := false, aiProcessingStatus := "pending" } : DocPriority)) ∈
      (applyCoreOps
        ⟨[("c00000000000000000000001", ⟨false, "pending"⟩)], 0, 0, 0, []⟩
        [CoreOp.processOp "c00000000000000000000001" PipelineOutcome.failure,
         CoreOp.retrySweepOp 3 "c00000000000000000000001"]).docs ∧
    ({ aiProcessed := false, aiProcessingStatus := "pending" } :
        DocPriority).aiProcessingStatus ≠ "review_required" := by
  constructor
  · decide
  · exact core_never_writes_review_required
      [CoreOp.processOp "c00000000000000000000001" PipelineOutcome.failure,
       CoreOp.retrySweepOp 3 "c00000000000000000000001"]
      ⟨[("c00000000000000000000001", ⟨false, "pending"⟩)], 0, 0, 0, []⟩
      (by decide)
      ("c00000000000000000000001",
        ({ aiProcessed := false, aiProcessingStatus := "pending" } : DocPriority))
      (by decide)

/-- C4 counterexample: with the default cap 3 and a failed document whose
tracked attempt count has reached the cap, the failed sweep skips the cid
but retains the `retryAttempts` entry — it is not removed from the map as
the claim states. -/
theorem retry_attempts_not_cleared_at_cap :
    (retrySweepFailedItem 3
        ⟨[("c00000000000000000000001", ⟨false, "failed"⟩)], 0, 0, 0,
          [("c00000000000000000000001", 3)]⟩
        "c00000000000000000000001").retryAttempts.lookup
      "c00000000000000000000001" = some 3 := by
  decide

theorem mapSetNat_lookup (m : List (String × Nat)) (k : String) (v : Nat) :
    (mapSetNat m k v).lookup k = some v := by
  simp [mapSetNat, List.lookup]

theorem mapPopNat_lookup (m : List (String × Nat)) (k : String) :
    (mapPopNat m k).lookup k = none := by
  induction m with
  | nil => rfl
  | cons p rest ih =>
      by_cases h : p.1 = k
      · simpa [mapPopNat, List.filter_cons, h] using ih
      · have hb : (p.1 != k) = true := bne_iff_ne.mpr h
        have hk : (k == p.1) = false := beq_eq_false_iff_ne.mpr (Ne.symm h)
        simp only [mapPopNat, List.filter_cons, hb, if_true, cond_true]
        simpa [List.lookup, hk, mapPopNat] using ih

/-- C4 (amended): the `retryAttempts` entry is created with value 1 on the
first failed→pending retry, incremented by one on each subsequent retry
while below the cap, left untouched (the whole sweep step, entry included,
is a no-op) once the count has reached `maxRetryAttempts`, and removed
from the map when processing succeeds. -/
theorem retry_attempts_lifecycle (st : CoreState) (cid : String) (cap : Nat)
    (d : DocPriority) (hdoc : st.docs.lookup cid = some d)
    (hfail : d.aiProcessed = false ∧ d.aiProcessingStatus = "failed") :
    (mapGetNat st.retryAttempts cid < cap →
      (retrySweepFailedItem cap st cid).retryAttempts.lookup cid =
          some (mapGetNat st.retryAttempts cid + 1) ∧
        (retrySweepFailedItem cap st cid).retried = st.retried + 1) ∧
    (cap ≤ mapGetNat st.retryAttempts cid →
      retrySweepFailedItem cap st cid = st) ∧
    (∀ st2 d2, isValidObjectId cid = true →
      st2.docs.lookup cid = some d2 →
      d2.aiProcessed = false → d2.aiProcessingStatus = "pending" →
      (processComplaint cid PipelineOutcome.success st2).retryAttempts.lookup cid
        = none) := by
  refine ⟨?_, ?_, ?_⟩
  · intro hlt
    simp only [retrySweepFailedItem, if_neg (Nat.not_le.mpr hlt), hdoc]
    rw [if_pos hfail]
    exact ⟨mapSetNat_lookup _ _ _, rfl⟩
  · intro hle
    simp only [retrySweepFailedItem, if_pos hle]
  · intro st2 d2 hvalid hdoc2 hproc hpend
    simp only [processComplaint, hvalid, Bool.true_eq_false, if_false,
      claimForProcessing, hdoc2]
    rw [if_pos ⟨hproc, hpend⟩]
    exact mapPopNat_lookup _ _

/-- C4 witness: a concrete first retry creates the entry with value 1, and
a concrete successful processing pass clears the entry. -/
theorem retry_attempts_lifecycle_witness :
    ((retrySweepFailedItem 3
        ⟨[("c00000000000000000000001", ⟨false, "failed"⟩)], 0, 0, 0, []⟩
        "c00000000000000000000001").retryAttempts.lookup
          "c00000000000000000000001" = some 1 ∧
      (retrySweepFailedItem 3
        ⟨[("c00000000000000000000001", ⟨false, "failed"⟩)], 0, 0, 0, []⟩
        "c00000000000000000000001").retried = 0 + 1) ∧
    (processComplaint "c00000000000000000000001" PipelineOutcome.success
        ⟨[("c00000000000000000000001", ⟨false, "pending"⟩)], 0, 0, 0,
          [("c00000000000000000000001", 2)]⟩).retryAttempts.lookup
      "c00000000000000000000001" = none := by
  have h := retry_attempts_lifecycle
    ⟨[("c00000000000000000000001", ⟨false, "failed"⟩)], 0, 0, 0, []⟩
    "c00000000000000000000001" 3 ⟨false, "failed"⟩ (by decide) (by decide)
  exact ⟨h.1 (by decide),
    h.2.2 ⟨[("c00000000000000000000001", ⟨false, "pending"⟩)], 0, 0, 0,
        [("c00000000000000000000001", 2)]⟩
      ⟨false, "pending"⟩ (by decide) (by decide) rfl rfl⟩

/-- C5 counterexample: a cid that cannot be parsed as a store identifier
is skipped silently — the document keeps `status="pending"`, no failure is
recorded and `processedFailed` stays 0, contradicting the claim that such
an item ends with `status=failed` and a counted failure. -/
theorem invalid_cid_skipped_without_failure_record :
    processComplaint "bad" PipelineOutcome.failure
        ⟨[("bad", ⟨false, "pending"⟩)], 0, 0, 0, []⟩ =
      ⟨[("bad", ⟨false, "pending"⟩)], 0, 0, 0, []⟩ ∧
    (processComplaint "bad" PipelineOutcome.failure
        ⟨[("bad", ⟨false, "pending"⟩)], 0, 0, 0, []⟩).processedFailed = 0 := by
  constructor <;> decide

/-- C5 (amended): for every complaint id that cannot be parsed as a store
identifier, processing returns immediately with the state unchanged: no
status write, no failure count, hence no retry eligibility. -/
theorem invalid_cid_is_noop (cid : String) (outcome : PipelineOutcome)
    (st : CoreState) (hinvalid : isValidObjectId cid = false) :
    processComplaint cid outcome st = st := by
  rw [processComplaint, if_pos hinvalid]

/-- C5 amended witness: the no-op at the concrete unparseable cid "bad". -/
theorem invalid_cid_is_noop_witness :
    isValidObjectId "bad" = false ∧
      processComplaint "bad" PipelineOutcome.success
          ⟨[], 1, 2, 3, []⟩ = ⟨[], 1, 2, 3, []⟩ :=
  ⟨by decide, invalid_cid_is_noop "bad" PipelineOutcome.success _ (by decide)⟩

theorem tokenChar_not_ws {c : Char} (h : isTokenChar c = true) :
    c.isWhitespace = false := by
  cases hb : c.isWhitespace with
  | false => rfl
  | true =>
      have hw := hb
      simp [Char.isWhitespace] at hw
      rcases hw with ((rfl | rfl) | rfl) | rfl <;> simp [isTokenChar] at h

theorem tokenizeAux_tokens_wf (l : List Char) :
    ∀ cur, (∀ c ∈ cur, isTokenChar c = true) →
      ∀ t ∈ tokenizeAux l cur, t ≠ [] ∧ ∀ c ∈ t, isTokenChar c = true := by
  induction l with
  | nil =>
      intro cur hcur t ht
      simp only [tokenizeAux] at ht
      split at ht
      · simp at ht
      · next hni =>
          simp only [List.mem_singleton] at ht
          subst ht
          refine ⟨?_, fun c hc => hcur c (List.mem_reverse.mp hc)⟩
          intro hrev
          exact hni (by simpa [List.isEmpty_iff] using
            (List.reverse_eq_nil_iff.mp hrev))
  | cons c rest ih =>
      intro cur hcur t ht
      simp only [tokenizeAux] at ht
      split at ht
      · next htok =>
          exact ih (c.toLower :: cur)
            (by
              intro x hx
              rcases List.mem_cons.mp hx with rfl | hx
              · exact htok
              · exact hcur x hx) t ht
      · split at ht
        · exact ih [] (by simp) t ht
        · next hni =>
            rcases List.mem_cons.mp ht with rfl | ht
            · refine ⟨?_, fun x hx => hcur x (List.mem_reverse.mp hx)⟩
              intro hrev
              exact hni (by simpa [List.isEmpty_iff] using
                (List.reverse_eq_nil_iff.mp hrev))
            · exact ih [] (by simp) t ht

theorem wsSplitAux_ne_nil (l : List Char) :
    ∀ cur, ((∃ c ∈ l, c.isWhitespace = false) ∨ cur ≠ []) →
      wsSplitAux l cur ≠ [] := by
  induction l with
  | nil =>
      intro cur h
      rcases h with ⟨c, hc, _⟩ | hcur
      · simp at hc
      · simp [wsSplitAux, List.isEmpty_iff, hcur]
  | cons c rest ih =>
      intro cur h
      simp only [wsSplitAux]
      by_cases hws : c.isWhitespace = true
      · rw [if_pos hws]
        split
        · apply ih []
          left
          rcases h with ⟨x, hx, hxw⟩ | hcur
          · rcases List.mem_cons.mp hx with rfl | hx
            · rw [hws] at hxw; cases hxw
            · exact ⟨x, hx, hxw⟩
          · next hemp => exact absurd (List.isEmpty_iff.mp hemp) hcur
        · simp
      · rw [if_neg hws]
        exact ih (c :: cur) (Or.inr (by simp))

theorem mem_intercalate_head {t : List Char} {rest : List (List Char)}
    {c : Char} (hc : c ∈ t) : c ∈ List.intercalate [' '] (t :: rest) := by
  cases rest with
  | nil => simpa [List.intercalate] using hc
  | cons r rs =>
      simp only [List.intercalate, List.intersperse_cons_cons, List.flatten_cons]
      exact List.mem_append_left _ hc

theorem normalizePhraseData_has_token {s : String}
    (hne : normalizePhraseData s ≠ []) :
    wsSplitAux (normalizePhraseData s) [] ≠ [] := by
  unfold normalizePhraseData at hne ⊢
  rcases hts : tokenizeAux s.data [] with _ | ⟨t1, ts⟩
  · rw [hts] at hne
    simp [List.intercalate] at hne
  · have hwf := tokenizeAux_tokens_wf s.data [] (by simp) t1
      (by rw [hts]; exact List.mem_cons_self _ _)
    cases t1 with
    | nil => exact absurd rfl hwf.1
    | cons c1 cs =>
        apply wsSplitAux_ne_nil
        left
        exact ⟨c1, mem_intercalate_head (List.mem_cons_self _ _),
          tokenChar_not_ws (hwf.2 c1 (List.mem_cons_self _ _))⟩

theorem eligible_pool_ne_nil {minConf : ℚ} {detections : List Detection}
    {mobilenet : Option MobileNetClassification}
    (hne : eligiblePhrases minConf detections mobilenet ≠ []) :
    tokenPoolData (eligiblePhrases minConf detections mobilenet) ≠ [] := by
  rcases List.exists_mem_of_ne_nil _ hne with ⟨p1, hp1⟩
  have hp1e := hp1
  unfold eligiblePhrases at hp1e
  have hp1f := List.mem_filter.mp hp1e
  rcases List.mem_map.mp hp1f.1 with ⟨s, hs, hps⟩
  have hpne : p1 ≠ [] := by simpa using hp1f.2
  have hsplit : wsSplitAux p1 [] ≠ [] := by
    subst hps
    exact normalizePhraseData_has_token hpne
  rcases List.exists_mem_of_ne_nil _ hsplit with ⟨x, hx⟩
  apply List.ne_nil_of_mem (a := x)
  unfold tokenPoolData
  rw [List.mem_flatten]
  refine ⟨wsSplitAux p1 [], ?_, hx⟩
  exact List.mem_map.mpr ⟨p1, hp1, rfl⟩

/-- C8 counterexample: for category "pothole" with the single eligible
phrase "road", the phrase list is non-empty, its token pool is entirely
generic traffic terms, the category has a profile — yet the validation
returns `match=true` (the positive-term check precedes the generic-pool
check), not `match=null` as the claim states. -/
theorem semantic_generic_pool_counterexample :
    (SEMANTIC_PROFILES.lookup "pothole").isSome = true ∧
      eligiblePhrases 0 [] (some ⟨"road", 1, []⟩) ≠ [] ∧
      (tokenPoolData (eligiblePhrases 0 [] (some ⟨"road", 1, []⟩))).all
        (fun t => GENERIC_TRAFFIC_TERMS.any fun g => g.data = t) = true ∧
      (validateCategorySemantics 0 (some "pothole") []
          (some ⟨"road", 1, []⟩)).1 = some true := by
  refine ⟨by decide, by decide, by decide, by decide⟩

/-- C8 (amended): if the category has a semantic profile, the eligible
normalized phrase list is non-empty, no positive term of the profile
occurs as a substring of any phrase, and the token pool is entirely
contained in the generic traffic terms, then the semantic category
validation returns `match=null` (inconclusive). -/
theorem semantic_generic_pool_inconclusive (minConf : ℚ)
    (category : Option String) (detections : List Detection)
    (mobilenet : Option MobileNetClassification)
    (profile : List String × List String)
    (hprof : SEMANTIC_PROFILES.lookup (pyLower (pyStrip (category.getD ""))) =
      some profile)
    (hne : eligiblePhrases minConf detections mobilenet ≠ [])
    (hnopos : matchTerms profile.1 (eligiblePhrases minConf detections mobilenet)
      = [])
    (hgen : (tokenPoolData (eligiblePhrases minConf detections mobilenet)).all
        (fun t => GENERIC_TRAFFIC_TERMS.any fun g => g.data = t) = true) :
    (validateCategorySemantics minConf category detections mobilenet).1 =
      none := by
  simp only [validateCategorySemantics]
  rw [hprof]
  simp only [hnopos, hgen]
  rw [if_neg (by simpa [List.isEmpty_iff] using hne)]
  rw [if_neg (by simp)]
  rw [if_pos (by
    simp only [Bool.and_eq_true, Bool.not_eq_true']
    exact ⟨by simpa [List.isEmpty_eq_false] using eligible_pool_ne_nil hne,
      trivial⟩)]

/-- C8 amended witness: category "garbage" with generic phrases "person"
and "car" is inconclusive. -/
theorem semantic_generic_pool_inconclusive_witness :
    (validateCategorySemantics 0 (some "garbage")
        [⟨"person", 1⟩, ⟨"car", 1⟩] none).1 = none :=
  semantic_generic_pool_inconclusive 0 (some "garbage")
    [⟨"person", 1⟩, ⟨"car", 1⟩] none
    (["garbage", "trash", "waste", "litter", "bin", "dumpster", "refuse",
        "landfill"], COMMON_NEGATIVE_TERMS)
    (by decide) (by decide) (by decide) (by decide)

/-- C9: for every title and description, the text scoring engine returns
`base_score = min(6, 3·H + 2·M + N)` where H, M, N are the match counts of
the HIGH, MEDIUM and NORMAL keyword groups under word-boundary matching on
the normalized text (lowercased, non-alphanumerics stripped, stop words
removed); in particular `base_score` never exceeds 6. -/
theorem base_score_formula_and_saturation (title description : Option String) :
    (TextScoringEngine.score title description).base_score =
        min 6
          (3 * (countGroupMatches
              (normalizeText ((title.getD "") ++ " " ++ (description.getD "")) true).data
              (compilePatterns HIGH_RISK)).1 +
            2 * (countGroupMatches
              (normalizeText ((title.getD "") ++ " " ++ (description.getD "")) true).data
              (compilePatterns MEDIUM_RISK)).1 +
            (countGroupMatches
              (normalizeText ((title.getD "") ++ " " ++ (description.getD "")) true).data
              (compilePatterns NORMAL_RISK)).1) ∧
      (TextScoringEngine.score title description).base_score ≤ 6 := by
  constructor
  · show min 6 _ = min 6 _
    congr 1
    ring
  · exact Nat.min_le_left _ _

/-- C6 witness: a concrete state where enqueueing the queued id "a" is a
no-op and enqueueing the fresh id "c" inserts it. -/
theorem enqueue_noop_iff_queued_or_in_flight_witness :
    enqueue ⟨["a"], ["a"], some "b", 5⟩ "a" = (false, ⟨["a"], ["a"], some "b", 5⟩) ∧
      enqueue ⟨["a"], ["a"], some "b", 5⟩ "c" =
        (true, ⟨["a", "c"], ["c", "a"], some "b", 6⟩) := by
  constructor
  · exact (enqueue_noop_iff_queued_or_in_flight ⟨["a"], ["a"], some "b", 5⟩ "a").1
      (by decide)
  · exact (enqueue_noop_iff_queued_or_in_flight ⟨["a"], ["a"], some "b", 5⟩ "c").2
      (by decide)

theorem haversine_self (lng lat : ℝ) : haversineMeters lng lat lng lat = 0 := by
  unfold haversineMeters
  simp only [sub_self, zero_mul, zero_div, Real.sin_zero, ne_eq,
    OfNat.ofNat_ne_zero, not_false_eq_true, zero_pow, mul_zero, add_zero]
  rw [show max (0 : ℝ) 0 = 0 from by norm_num,
    show min (1 : ℝ) 0 = 0 from by norm_num]
  rw [Real.sqrt_zero, sub_zero, Real.sqrt_one]
  rw [atan2, if_pos (by norm_num : (0 : ℝ) < 1)]
  simp [Real.arctan_zero]

theorem scanStep_eq_or (emb : Option (List ℝ)) (fp : Option String)
    (srcCat : String) (srcCoords : Option (ℝ × ℝ)) (acc : BestTrack)
    (doc : CandidateDoc) :
    scanStep emb fp srcCat srcCoords acc doc = acc ∨
      ∃ sim, scanStep emb fp srcCat srcCoords acc doc =
        { maxSim := sim
          matchedId := some doc.id
          matchedDist := distanceBetween srcCoords doc.coordinates
          matchedCatOk := isSameCategory srcCat doc.category
          matchedMethod := duplicateMethod emb fp doc.imageFingerprint
            doc.embedding } := by
  unfold scanStep
  cases hsim : duplicateSimilarity emb fp doc.imageFingerprint doc.embedding with
  | none => left; rfl
  | some sim =>
      by_cases hlt : acc.maxSim < sim
      · right; exact ⟨sim, by dsimp only; rw [if_pos hlt]⟩
      · left; dsimp only; rw [if_neg hlt]

theorem scanFold_track (emb : Option (List ℝ)) (fp : Option String)
    (srcCat : String) (srcCoords : Option (ℝ × ℝ))
    (cands : List CandidateDoc) :
    ∀ acc : BestTrack,
      cands.foldl (scanStep emb fp srcCat srcCoords) acc = acc ∨
        ∃ c ∈ cands, ∃ sim,
          cands.foldl (scanStep emb fp srcCat srcCoords) acc =
            { maxSim := sim
              matchedId := some c.id
              matchedDist := distanceBetween srcCoords c.coordinates
              matchedCatOk := isSameCategory srcCat c.category
              matchedMethod := duplicateMethod emb fp c.imageFingerprint
                c.embedding } := by
  induction cands with
  | nil => intro acc; left; rfl
  | cons d rest ih =>
      intro acc
      rcases ih (scanStep emb fp srcCat srcCoords acc d) with heq | ⟨c, hc, sim, heq⟩
      · rcases scanStep_eq_or emb fp srcCat srcCoords acc d with h1 | ⟨sim, h1⟩
        · left
          rw [List.foldl_cons, heq, h1]
        · right
          exact ⟨d, List.mem_cons_self _ _, sim, by rw [List.foldl_cons, heq, h1]⟩
      · right
        exact ⟨c, List.mem_cons_of_mem _ hc, sim, by rw [List.foldl_cons]; exact heq⟩

/-- C3: with an embedding or a fingerprint present, the duplicate check
reports a duplicate exactly when the tracked best-similarity candidate
passes all three gates — similarity strictly above the threshold, recorded
haversine distance present (hence both coordinate pairs present) and at
most 300 m, and categories equal after case-folding with both present —
and any reported duplicate's matched candidate is one of the scanned
candidates, so it is distinct from the current cid and lies within the
lookback window, with the recorded distance and category comparison taken
from that candidate. -/
theorem duplicate_gate_iff_and_provenance (threshold lookbackStart : ℝ)
    (emb : Option (List ℝ)) (fp : Option String) (srcCat : String)
    (srcCoords : Option (ℝ × ℝ)) (cid : String)
    (cands : List CandidateDoc)
    (hpresent : emb ≠ none ∨ fp ≠ none)
    (hcands : ∀ c ∈ cands, c.id ≠ cid ∧ lookbackStart ≤ c.createdAt) :
    (isDuplicateResult threshold (scanCandidates emb fp srcCat srcCoords cands) ↔
      threshold < (scanCandidates emb fp srcCat srcCoords cands).maxSim ∧
        (∃ d, (scanCandidates emb fp srcCat srcCoords cands).matchedDist =
            some d ∧ d ≤ DUPLICATE_MAX_DISTANCE_METERS) ∧
        (scanCandidates emb fp srcCat srcCoords cands).matchedCatOk =
          some true) ∧
    (isDuplicateResult threshold (scanCandidates emb fp srcCat srcCoords cands) →
      ∃ c ∈ cands,
        (scanCandidates emb fp srcCat srcCoords cands).matchedId = some c.id ∧
        c.id ≠ cid ∧ lookbackStart ≤ c.createdAt ∧
        (scanCandidates emb fp srcCat srcCoords cands).matchedDist =
          distanceBetween srcCoords c.coordinates ∧
        (scanCandidates emb fp srcCat srcCoords cands).matchedCatOk =
          isSameCategory srcCat c.category) := by
  constructor
  · exact Iff.rfl
  · intro hdup
    rcases scanFold_track emb fp srcCat srcCoords cands
        { maxSim := 0, matchedId := none, matchedDist := none,
          matchedCatOk := none, matchedMethod := none } with heq | ⟨c, hc, sim, heq⟩
    · exfalso
      have hcat := hdup.2.2
      unfold duplicateSameCategory scanCandidates at hcat
      rw [heq] at hcat
      simp at hcat
    · have hs : scanCandidates emb fp srcCat srcCoords cands =
          { maxSim := sim
            matchedId := some c.id
            matchedDist := distanceBetween srcCoords c.coordinates
            matchedCatOk := isSameCategory srcCat c.category
            matchedMethod := duplicateMethod emb fp c.imageFingerprint
              c.embedding } := heq
      exact ⟨c, hc, by rw [hs], (hcands c hc).1, (hcands c hc).2,
        by rw [hs], by rw [hs]⟩

theorem parseHexNat_f : parseHexNat "f" = some 15 := rfl

theorem fingerprintSimilarity_ff : fingerprintSimilarity "f" "f" = 1 := by
  unfold fingerprintSimilarity
  rw [parseHexNat_f]
  have hx : (15 ^^^ 15 : Nat) = 0 := rfl
  have hp : popCount 0 = 0 := by rw [popCount]; simp
  simp only [hx, hp]
  norm_num

/-- C3 witness: a single candidate with an identical fingerprint, the same
coordinates and the same category is reported as a duplicate drawn from
the candidate list. -/
theorem duplicate_gate_iff_and_provenance_witness :
    ∃ c ∈ [sampleDuplicateCandidate],
      (scanCandidates none (some "f") "pothole" (some ((0 : ℝ), (0 : ℝ)))
          [sampleDuplicateCandidate]).matchedId = some c.id ∧
      c.id ≠ "a" ∧ (0 : ℝ) ≤ c.createdAt ∧
      (scanCandidates none (some "f") "pothole" (some ((0 : ℝ), (0 : ℝ)))
          [sampleDuplicateCandidate]).matchedDist =
        distanceBetween (some ((0 : ℝ), (0 : ℝ))) c.coordinates ∧
      (scanCandidates none (some "f") "pothole" (some ((0 : ℝ), (0 : ℝ)))
          [sampleDuplicateCandidate]).matchedCatOk =
        isSameCategory "pothole" c.category := by
  have hb : scanCandidates none (some "f") "pothole" (some ((0 : ℝ), (0 : ℝ)))
      [sampleDuplicateCandidate] =
      { maxSim := fingerprintSimilarity "f" "f"
        matchedId := some "b"
        matchedDist := some (haversineMeters 0 0 0 0)
        matchedCatOk := some true
        matchedMethod := some "dhash64" } := by
    show scanStep none (some "f") "pothole" (some ((0 : ℝ), (0 : ℝ)))
        { maxSim := 0, matchedId := none, matchedDist := none,
          matchedCatOk := none, matchedMethod := none }
        sampleDuplicateCandidate = _
    unfold scanStep sampleDuplicateCandidate
    rw [show duplicateSimilarity none (some "f") (some "f") none =
      some (fingerprintSimilarity "f" "f") from rfl]
    dsimp only
    rw [if_pos (by rw [fingerprintSimilarity_ff]; norm_num)]
    rfl
  have h := duplicate_gate_iff_and_provenance 0.92 0 none (some "f")
    "pothole" (some ((0 : ℝ), (0 : ℝ))) "a" [sampleDuplicateCandidate]
    (Or.inr (by simp))
    (by
      intro c hcmem
      rw [List.mem_singleton] at hcmem
      subst hcmem
      unfold sampleDuplicateCandidate
      exact ⟨by decide, by norm_num⟩)
  apply h.2
  refine ⟨?_, ⟨haversineMeters 0 0 0 0, ?_, ?_⟩, ?_⟩
  · rw [hb]
    show (0.92 : ℝ) < fingerprintSimilarity "f" "f"
    rw [fingerprintSimilarity_ff]
    norm_num
  · rw [hb]
  · rw [haversine_self]
    unfold DUPLICATE_MAX_DISTANCE_METERS
    norm_num
  · rw [hb]
    rfl

/-- C1: for every complaint, the spec-modelled later-generation priority
engine's final score equals
`round(base_score · geo_multiplier + time_score + cluster_boost, 2)`,
where the base score comes from the embedded text scoring engine, the geo
multiplier from the embedded sensitive-location lookup, the cluster boost
from the embedded cluster detector, and
`time_score = min(3.0, 2.0·log(days_pending + 1))` is computed from
`createdAt` with `days_pending` defaulting to 0 for unparseable values;
the level is the mapping of the final score. -/
theorem priority_final_score_formula
    (sensitiveLocations : List SensitiveLocation)
    (otherComplaints : List CandidateDoc) (now : ℝ)
    (complaint : ComplaintInput) :
    (PriorityEngine.compute sensitiveLocations otherComplaints now
        complaint).priority_score =
      round2
        ((PriorityEngine.compute sensitiveLocations otherComplaints now
            complaint).base_score *
          (PriorityEngine.compute sensitiveLocations otherComplaints now
            complaint).geo_multiplier +
          (PriorityEngine.compute sensitiveLocations otherComplaints now
            complaint).time_score +
          (PriorityEngine.compute sensitiveLocations otherComplaints now
            complaint).cluster_boost) ∧
    (PriorityEngine.compute sensitiveLocations otherComplaints now
        complaint).time_score =
      min 3 (2 * Real.log (daysPending now complaint.createdAt + 1)) ∧
    (PriorityEngine.compute sensitiveLocations otherComplaints now
        complaint).base_score =
      ((TextScoringEngine.score complaint.title
          complaint.description).base_score : ℝ) ∧
    (PriorityEngine.compute sensitiveLocations otherComplaints now
        complaint).geo_multiplier =
      (GeoMultiplier.resolve sensitiveLocations complaint.coordinates).multiplier ∧
    (PriorityEngine.compute sensitiveLocations otherComplaints now
        complaint).cluster_boost =
      (ClusterDetector.detect otherComplaints now complaint.id
          complaint.coordinates).cluster_boost ∧
    (PriorityEngine.compute sensitiveLocations otherComplaints now
        complaint).priority_level =
      mapLevel
        (PriorityEngine.compute sensitiveLocations otherComplaints now
            complaint).priority_score :=
  ⟨rfl, rfl, rfl, rfl, rfl, rfl⟩

/-- C2: under the spec-modelled level mapping of the priority engine, the
level is "low" exactly when the score is below 3, "medium" exactly when it
is between 3 and 6 inclusive, and "high" exactly when it is above 6. -/
theorem priority_level_thresholds (score : ℝ) :
    (mapLevel score = "low" ↔ score < 3) ∧
    (mapLevel score = "medium" ↔ 3 ≤ score ∧ score ≤ 6) ∧
    (mapLevel score = "high" ↔ 6 < score) := by
  unfold mapLevel
  by_cases h3 : score < 3
  · rw [if_pos h3]
    refine ⟨⟨fun _ => h3, fun _ => rfl⟩, ?_, ?_⟩
    · constructor
      · intro habs; exact absurd habs (by decide)
      · rintro ⟨h31, _⟩; exact absurd h3 (not_lt.mpr h31)
    · constructor
      · intro habs; exact absurd habs (by decide)
      · intro h6; linarith
  · rw [if_neg h3]
    push_neg at h3
    by_cases h6 : score ≤ 6
    · rw [if_pos h6]
      refine ⟨?_, ⟨fun _ => ⟨h3, h6⟩, fun _ => rfl⟩, ?_⟩
      · constructor
        · intro habs; exact absurd habs (by decide)
        · intro hlt; exact absurd hlt (not_lt.mpr h3)
      · constructor
        · intro habs; exact absurd habs (by decide)
        · intro hgt; exact absurd h6 (not_le.mpr hgt)
    · rw [if_neg h6]
      push_neg at h6
      refine ⟨?_, ?_, ⟨fun _ => h6, fun _ => rfl⟩⟩
      · constructor
        · intro habs; exact absurd habs (by decide)
        · intro hlt; linarith
      · constructor
        · intro habs; exact absurd habs (by decide)
        · rintro ⟨_, h62⟩; exact absurd h62 (not_le.mpr h6)

end Civisense
